import Mathlib

/-!
Shallow embedding of `src/server.py` from the `web_sec_api` repository:
the session-admission function `verify_api_key` and the image change
tracker `ImageTracker` (`_refresh`, `get_info`).

Modelling choices:
* Wall-clock instants used by the session logic (`time.time()`) are `Int`;
  only subtraction and order comparisons are used by the code.
* Instants recorded by the tracker (`datetime.now(...).isoformat()`) are
  opaque values modelled as `Nat`.
* The Python dict `_active_sessions` is an association list
  `List (String × Session)`, with `getSession` for `dict.get` and
  `setSession` for key assignment (overwrite-or-append).
* `x_api_key : Option String`; a `None` header arrives as `none`, and the
  Python truthiness test `not x_api_key` is `none` or `some ""`.
  `client_id` arrives as a `String`; the route turns a missing header into
  `""` (`x_client_id or ""`), so `""` models missing.
* File MD5 hashing is abstracted: a refresh cycle observes a `FileRead`,
  which is either `absent` (the `os.path.isfile` check fails), `readError`
  (an `OSError` while hashing or sizing), or `ok md5 size`.  Hashing actual
  content is an arbitrary function `List Nat → String`, so re-reading
  byte-identical content yields the same digest.
-/

/-- One entry of `_active_sessions`:
`{"client_id": ..., "ip": ..., "last_active": ...}`. -/
structure Session where
  client_id : String
  ip : String
  last_active : Int
deriving DecidableEq, Repr

/-- The outcome of `verify_api_key`: either it raises an `HTTPException`
(403 / 400 / 409, the 409 carrying the incumbent's truncated id, stored ip
and the retry-hint seconds from the detail string) or it returns normally
(admitted). -/
inductive AdmitResult where
  | unauthorized
  | badRequest
  | conflict (truncatedId : String) (ip : String) (retryAfter : Int)
  | admitted
deriving DecidableEq, Repr

/-- `_active_sessions.get(k)`. -/
def getSession (sessions : List (String × Session)) (k : String) : Option Session :=
  match sessions with
  | [] => none
  | (k', v) :: rest => if k' = k then some v else getSession rest k

/-- `_active_sessions[k] = v`: overwrite the entry for `k` if present,
otherwise append it. -/
def setSession (sessions : List (String × Session)) (k : String) (v : Session) :
    List (String × Session) :=
  match sessions with
  | [] => [(k, v)]
  | (k', v') :: rest =>
      if k' = k then (k, v) :: rest else (k', v') :: setSession rest k v

/-- `verify_api_key` from `src/server.py` (lines 49–86), as a pure function
from the ambient configuration (`API_KEYS`, `SESSION_TIMEOUT`), the current
session map and the request data to the admission result and the updated
session map. -/
def verify_api_key (API_KEYS : List String) (SESSION_TIMEOUT : Int)
    (sessions : List (String × Session))
    (x_api_key : Option String) (client_id : String) (client_ip : String)
    (now : Int) : AdmitResult × List (String × Session) :=
  match x_api_key with
  | none => (.unauthorized, sessions)
  | some k =>
    if k = "" ∨ k ∉ API_KEYS then
      (.unauthorized, sessions)
    else if client_id = "" then
      (.badRequest, sessions)
    else
      match getSession sessions k with
      | some session =>
          let elapsed := now - session.last_active
          if session.client_id = client_id then
            (.admitted, setSession sessions k { session with last_active := now })
          else if elapsed > SESSION_TIMEOUT then
            (.admitted, setSession sessions k ⟨client_id, client_ip, now⟩)
          else
            (.conflict (session.client_id.take 8) session.ip
              (SESSION_TIMEOUT - elapsed), sessions)
      | none =>
          (.admitted, setSession sessions k ⟨client_id, client_ip, now⟩)

/-- The mutable state of `ImageTracker`: `_md5`, `_size`, `_exists`,
`_last_changed`. -/
structure TrackerState where
  md5 : Option String
  size : Nat
  exists_ : Bool
  last_changed : Option Nat
deriving DecidableEq, Repr

/-- What one `_refresh` cycle observes about the file. -/
inductive FileRead where
  | absent
  | readError
  | ok (md5 : String) (size : Nat)
deriving DecidableEq, Repr

/-- `ImageTracker._refresh` (lines 123–144): absent file clears the
fingerprint and size and drops `exists`, an `OSError` leaves the state
untouched, and a successful read stores the size, marks the file present,
and rewrites `md5` and `last_changed` exactly when the digest differs from
the stored one. -/
def ImageTracker.refresh (s : TrackerState) (r : FileRead) (now : Nat) :
    TrackerState :=
  match r with
  | .absent => { s with exists_ := false, md5 := none, size := 0 }
  | .readError => s
  | .ok md5 size =>
      if some md5 = s.md5 then
        { s with exists_ := true, size := size }
      else
        { md5 := some md5, size := size, exists_ := true, last_changed := some now }

/-- A successful read of a file holding `content`, digested by an arbitrary
hash function: the observed md5 is a pure function of the bytes. -/
def readContent (hash : List Nat → String) (content : List Nat) : FileRead :=
  .ok (hash content) content.length

/-- JSON values appearing in the status response. -/
inductive Json where
  | null
  | bool (b : Bool)
  | num (n : Nat)
  | str (s : String)
deriving DecidableEq, Repr

/-- `ImageTracker.get_info` (lines 151–160): the JSON object returned by the
status route, as an ordered field list. -/
def ImageTracker.get_info (s : TrackerState) : List (String × Json) :=
  if s.exists_ = false then
    [("exists", .bool false)]
  else
    [("exists", .bool true),
     ("last_modified", match s.last_changed with | none => .null | some t => .num t),
     ("size", .num s.size),
     ("md5", match s.md5 with | none => .null | some m => .str m)]

/-- The field names of a JSON object. -/
def jsonKeys (fields : List (String × Json)) : List String :=
  fields.map Prod.fst

/- ───────── helper lemmas ───────── -/

theorem getSession_setSession_self (sessions : List (String × Session))
    (k : String) (v : Session) :
    getSession (setSession sessions k v) k = some v := by
  induction sessions with
  | nil => simp [setSession, getSession]
  | cons hd tl ih =>
      obtain ⟨k', v'⟩ := hd
      by_cases h : k' = k
      · simp [setSession, getSession, h]
      · simp [setSession, getSession, h, ih]

/- ───────── ChangeTracker claims ───────── -/

/-- C2: after a successful read, `size` is stored and the file is marked
present; `last_changed` is rewritten to the current instant exactly when the
observed digest differs from the stored one (including the first observation,
when no digest is stored), and otherwise both `md5` and `last_changed` are
left untouched; consequently re-reading byte-identical content a second time
never advances `last_changed`. -/
theorem refresh_lastChanged_iff_digest_changed (s : TrackerState) (md5 : String)
    (size now : Nat) (hash : List Nat → String) (content : List Nat) (t1 t2 : Nat) :
    (ImageTracker.refresh s (.ok md5 size) now).size = size ∧
    (ImageTracker.refresh s (.ok md5 size) now).exists_ = true ∧
    (ImageTracker.refresh s (.ok md5 size) now).md5 =
      (if some md5 = s.md5 then s.md5 else some md5) ∧
    (ImageTracker.refresh s (.ok md5 size) now).last_changed =
      (if some md5 = s.md5 then s.last_changed else some now) ∧
    (ImageTracker.refresh (ImageTracker.refresh s (readContent hash content) t1)
        (readContent hash content) t2).last_changed =
      (ImageTracker.refresh s (readContent hash content) t1).last_changed := by
  refine ⟨?_, ?_, ?_, ?_, ?_⟩
  · simp only [ImageTracker.refresh]; split <;> rfl
  · simp only [ImageTracker.refresh]; split <;> rfl
  · simp only [ImageTracker.refresh]; split <;> simp_all
  · simp only [ImageTracker.refresh]; split <;> simp_all
  · by_cases h : some (hash content) = s.md5
    · simp [ImageTracker.refresh, readContent, h]
    · simp [ImageTracker.refresh, readContent, h]

/-- C6: an `OSError` raised while hashing or sizing the file makes `_refresh`
return early, leaving the previously committed state (`exists`, `md5`, `size`,
`last_changed`) completely unmodified. -/
theorem refresh_readError_keeps_state (s : TrackerState) (now : Nat) :
    ImageTracker.refresh s .readError now = s := rfl

/-- C7: when the file is absent, `_refresh` commits `exists = false` with a
cleared fingerprint and zero size while keeping `last_changed`; a later
successful read — of any content, including content whose digest equals the
pre-absence one — marks the file present again with a fresh `last_changed`,
because the stored fingerprint was cleared. -/
theorem refresh_absent_and_reappear (s : TrackerState) (t1 : Nat)
    (md5 : String) (size t2 : Nat) :
    ImageTracker.refresh s .absent t1 =
      { s with exists_ := false, md5 := none, size := 0 } ∧
    (ImageTracker.refresh s .absent t1).last_changed = s.last_changed ∧
    ImageTracker.refresh (ImageTracker.refresh s .absent t1) (.ok md5 size) t2 =
      ⟨some md5, size, true, some t2⟩ := by
  refine ⟨rfl, rfl, ?_⟩
  simp [ImageTracker.refresh]

/-- C4 counterexample: on the tracker's state for an absent file, `get_info`
returns only the single field `exists`, not the four fields
`exists`/`last_modified`/`size`/`md5` the claim requires of every response. -/
theorem status_shape_counterexample :
    ¬ (jsonKeys (ImageTracker.get_info ⟨none, 0, false, none⟩) =
        ["exists", "last_modified", "size", "md5"]) := by decide

/-- C4 (amended): when the resource exists the status response has exactly the
four fields `exists`, `last_modified`, `size`, `md5` (in that order, with
`last_modified` and `md5` null when absent); when the resource does not exist
the response consists of the single field `exists: false`, omitting the other
three. -/
theorem status_shape (s : TrackerState) :
    jsonKeys (ImageTracker.get_info s) =
      (if s.exists_ then ["exists", "last_modified", "size", "md5"]
       else ["exists"]) ∧
    List.lookup "exists" (ImageTracker.get_info s) = some (.bool s.exists_) := by
  cases h : s.exists_ <;>
    simp [ImageTracker.get_info, jsonKeys, List.lookup, h]

/- ───────── SessionGuard claims ───────── -/

/-- C1: with a valid key, a non-empty client id and an existing claim held by
a different client, `verify_api_key` overwrites the claim with the new
holder's identity, source address and `now` and admits when
`now - lastActive > SESSION_TIMEOUT`, and returns a conflict (leaving the
session map unmodified) when `now - lastActive ≤ SESSION_TIMEOUT`, including
exactly at the boundary. -/
theorem admit_takeover_or_conflict (API_KEYS : List String)
    (SESSION_TIMEOUT : Int) (sessions : List (String × Session))
    (k client_id client_ip : String) (sess : Session) (now : Int)
    (hk : k ≠ "") (hmem : k ∈ API_KEYS) (hc : client_id ≠ "")
    (hs : getSession sessions k = some sess)
    (hd : sess.client_id ≠ client_id) :
    (SESSION_TIMEOUT < now - sess.last_active →
      verify_api_key API_KEYS SESSION_TIMEOUT sessions (some k) client_id
          client_ip now =
        (.admitted, setSession sessions k ⟨client_id, client_ip, now⟩)) ∧
    (now - sess.last_active ≤ SESSION_TIMEOUT →
      verify_api_key API_KEYS SESSION_TIMEOUT sessions (some k) client_id
          client_ip now =
        (.conflict (sess.client_id.take 8) sess.ip
            (SESSION_TIMEOUT - (now - sess.last_active)), sessions)) := by
  constructor <;> intro ht <;>
    simp [verify_api_key, hk, hmem, hc, hs, hd, ht, not_lt.mpr]

/-- C1 witness: with `SESSION_TIMEOUT = 30` and an incumbent last active at
`100`, a different client's call at `131` (elapsed `31 > 30`) takes over,
while a call at `130` (elapsed `30`, exactly the boundary) conflicts and
leaves the map unchanged. -/
theorem admit_takeover_or_conflict_witness :
    verify_api_key ["k1"] 30 [("k1", ⟨"alice", "10.0.0.1", 100⟩)] (some "k1")
        "bob" "10.0.0.2" 131 =
      (.admitted, [("k1", ⟨"bob", "10.0.0.2", 131⟩)]) ∧
    verify_api_key ["k1"] 30 [("k1", ⟨"alice", "10.0.0.1", 100⟩)] (some "k1")
        "bob" "10.0.0.2" 130 =
      (.conflict ("alice".take 8) "10.0.0.1" 0,
        [("k1", ⟨"alice", "10.0.0.1", 100⟩)]) := by
  constructor
  · exact (admit_takeover_or_conflict ["k1"] 30
      [("k1", ⟨"alice", "10.0.0.1", 100⟩)] "k1" "bob" "10.0.0.2"
      ⟨"alice", "10.0.0.1", 100⟩ 131 (by decide) (by decide) (by decide)
      (by decide) (by decide)).1 (by decide)
  · have h := (admit_takeover_or_conflict ["k1"] 30
      [("k1", ⟨"alice", "10.0.0.1", 100⟩)] "k1" "bob" "10.0.0.2"
      ⟨"alice", "10.0.0.1", 100⟩ 130 (by decide) (by decide) (by decide)
      (by decide) (by decide)).2 (by decide)
    simpa using h

/-- C3: when the existing claim's holder equals the request's client id (and
the key is valid, the id non-empty), `verify_api_key` admits and merely sets
`last_active := now`, keeping the holder's own identity and address in place:
the refreshed claim is the holder's own, so repeated polls keep admitting and
never evict it. -/
theorem admit_refresh_idempotent (API_KEYS : List String)
    (SESSION_TIMEOUT : Int) (sessions : List (String × Session))
    (k client_ip : String) (sess : Session) (now : Int)
    (hk : k ≠ "") (hmem : k ∈ API_KEYS)
    (hs : getSession sessions k = some sess)
    (hc : sess.client_id ≠ "") :
    verify_api_key API_KEYS SESSION_TIMEOUT sessions (some k) sess.client_id
        client_ip now =
      (.admitted, setSession sessions k { sess with last_active := now }) ∧
    getSession (setSession sessions k { sess with last_active := now }) k =
      some { sess with last_active := now } := by
  refine ⟨?_, getSession_setSession_self ..⟩
  simp [verify_api_key, hk, hmem, hc, hs]

/-- C3 witness: the incumbent `alice` polling again is admitted and keeps her
own claim with a refreshed `last_active`. -/
theorem admit_refresh_idempotent_witness :
    verify_api_key ["k1"] 30 [("k1", ⟨"alice", "10.0.0.1", 100⟩)] (some "k1")
        "alice" "10.0.0.9" 115 =
      (.admitted, [("k1", ⟨"alice", "10.0.0.1", 115⟩)]) ∧
    getSession [("k1", ⟨"alice", "10.0.0.1", 115⟩)] "k1" =
      some ⟨"alice", "10.0.0.1", 115⟩ := by
  have h := admit_refresh_idempotent ["k1"] 30
    [("k1", ⟨"alice", "10.0.0.1", 100⟩)] "k1" "10.0.0.9"
    ⟨"alice", "10.0.0.1", 100⟩ 115 (by decide) (by decide) (by decide)
    (by decide)
  simpa using h

/-- C5: `verify_api_key` is unauthorized exactly when the key header is
absent, empty (Python's falsy test treats an empty header as missing) or not
among the configured keys, and bad-request exactly when the key is valid but
the client id is empty/missing; in both failure cases the session map is
returned unchanged. -/
theorem admit_rejects_iff (API_KEYS : List String) (SESSION_TIMEOUT : Int)
    (sessions : List (String × Session)) (x_api_key : Option String)
    (client_id client_ip : String) (now : Int) :
    ((verify_api_key API_KEYS SESSION_TIMEOUT sessions x_api_key client_id
          client_ip now).1 = .unauthorized ↔
      x_api_key = none ∨ x_api_key = some "" ∨
        ∃ k, x_api_key = some k ∧ k ∉ API_KEYS) ∧
    ((verify_api_key API_KEYS SESSION_TIMEOUT sessions x_api_key client_id
          client_ip now).1 = .badRequest ↔
      ∃ k, x_api_key = some k ∧ k ≠ "" ∧ k ∈ API_KEYS ∧ client_id = "") ∧
    (((verify_api_key API_KEYS SESSION_TIMEOUT sessions x_api_key client_id
          client_ip now).1 = .unauthorized ∨
      (verify_api_key API_KEYS SESSION_TIMEOUT sessions x_api_key client_id
          client_ip now).1 = .badRequest) →
      (verify_api_key API_KEYS SESSION_TIMEOUT sessions x_api_key client_id
          client_ip now).2 = sessions) := by
  cases x_api_key with
  | none => simp [verify_api_key]
  | some k =>
    by_cases hk : k = "" ∨ k ∉ API_KEYS
    · rcases hk with rfl | hm
      · simp [verify_api_key]
      · simp [verify_api_key, hm]
    · obtain ⟨hne, hmem'⟩ := not_or.mp hk
      have hmem : k ∈ API_KEYS := not_not.mp hmem'
      by_cases hc : client_id = ""
      · subst hc
        simp [verify_api_key, hne, hmem]
      · rcases hgs : getSession sessions k with _ | sess
        · simp [verify_api_key, hne, hmem, hc, hgs]
        · by_cases hid : sess.client_id = client_id
          · simp [verify_api_key, hne, hmem, hc, hgs, hid]
          · by_cases he : SESSION_TIMEOUT < now - sess.last_active
            · simp [verify_api_key, hne, hmem, hc, hgs, hid, he]
            · simp [verify_api_key, hne, hmem, hc, hgs, hid, he]

/-- C8: every conflict result of `verify_api_key` carries the incumbent's
identity truncated to its first 8 characters, the incumbent's stored source
address, and `SESSION_TIMEOUT - (now - lastActive)` as the retry hint. -/
theorem conflict_payload (API_KEYS : List String) (SESSION_TIMEOUT : Int)
    (sessions : List (String × Session)) (x_api_key : Option String)
    (client_id client_ip : String) (now : Int)
    (tid ip : String) (ra : Int)
    (h : (verify_api_key API_KEYS SESSION_TIMEOUT sessions x_api_key
        client_id client_ip now).1 = .conflict tid ip ra) :
    ∃ k sess, x_api_key = some k ∧ getSession sessions k = some sess ∧
      sess.client_id ≠ client_id ∧
      tid = sess.client_id.take 8 ∧ ip = sess.ip ∧
      ra = SESSION_TIMEOUT - (now - sess.last_active) := by
  cases x_api_key with
  | none => simp [verify_api_key] at h
  | some k =>
    by_cases hk : k = "" ∨ k ∉ API_KEYS
    · simp [verify_api_key, hk] at h
    · obtain ⟨hne, hmem'⟩ := not_or.mp hk
      have hmem : k ∈ API_KEYS := not_not.mp hmem'
      by_cases hc : client_id = ""
      · simp [verify_api_key, hne, hmem, hc] at h
      · rcases hgs : getSession sessions k with _ | sess
        · simp [verify_api_key, hne, hmem, hc, hgs] at h
        · by_cases hid : sess.client_id = client_id
          · simp [verify_api_key, hne, hmem, hc, hgs, hid] at h
          · by_cases he : SESSION_TIMEOUT < now - sess.last_active
            · simp [verify_api_key, hne, hmem, hc, hgs, hid, he] at h
            · simp [verify_api_key, hne, hmem, hc, hgs, hid, he] at h
              exact ⟨k, sess, rfl, hgs, hid, h.1.symm, h.2.1.symm, h.2.2.symm⟩

/-- C8 witness: `bob` probing `alice`'s live claim (timeout 30, last active
100, now 120) gets a conflict carrying `alice`'s truncated id, her stored
address and 10 seconds of retry hint. -/
theorem conflict_payload_witness :
    ∃ k sess, (some "k1" : Option String) = some k ∧
      getSession [("k1", ⟨"alice", "10.0.0.1", 100⟩)] k = some sess ∧
      sess.client_id ≠ "bob" ∧
      "alice" = sess.client_id.take 8 ∧ "10.0.0.1" = sess.ip ∧
      (10 : Int) = 30 - (120 - sess.last_active) :=
  conflict_payload ["k1"] 30 [("k1", ⟨"alice", "10.0.0.1", 100⟩)]
    (some "k1") "bob" "10.0.0.2" 120 "alice" "10.0.0.1" 10 (by decide)

/-- C9: admission is one atomic read-modify-write under the single
`_session_lock`, so two racing first claims for the same key serialize; in
either serialization order, with no prior claim and a non-negative timeout,
the first call is admitted and the second conflicts (never two admissions),
and the conflicting call leaves the winner's claim in place. -/
theorem concurrent_first_claim_single_winner (API_KEYS : List String)
    (T : Int) (sessions : List (String × Session))
    (k h1 h2 ip1 ip2 : String) (now : Int)
    (hk : k ≠ "") (hmem : k ∈ API_KEYS) (h1ne : h1 ≠ "") (h2ne : h2 ≠ "")
    (hpair : h1 ≠ h2) (hs : getSession sessions k = none) (hT : 0 ≤ T) :
    ((verify_api_key API_KEYS T sessions (some k) h1 ip1 now).1 = .admitted ∧
     (verify_api_key API_KEYS T
        (verify_api_key API_KEYS T sessions (some k) h1 ip1 now).2
        (some k) h2 ip2 now).1 = .conflict (h1.take 8) ip1 T ∧
     (verify_api_key API_KEYS T
        (verify_api_key API_KEYS T sessions (some k) h1 ip1 now).2
        (some k) h2 ip2 now).2 =
       (verify_api_key API_KEYS T sessions (some k) h1 ip1 now).2) ∧
    ((verify_api_key API_KEYS T sessions (some k) h2 ip2 now).1 = .admitted ∧
     (verify_api_key API_KEYS T
        (verify_api_key API_KEYS T sessions (some k) h2 ip2 now).2
        (some k) h1 ip1 now).1 = .conflict (h2.take 8) ip2 T ∧
     (verify_api_key API_KEYS T
        (verify_api_key API_KEYS T sessions (some k) h2 ip2 now).2
        (some k) h1 ip1 now).2 =
       (verify_api_key API_KEYS T sessions (some k) h2 ip2 now).2) := by
  have step1 : verify_api_key API_KEYS T sessions (some k) h1 ip1 now =
      (.admitted, setSession sessions k ⟨h1, ip1, now⟩) := by
    simp [verify_api_key, hk, hmem, h1ne, hs]
  have step2 : verify_api_key API_KEYS T sessions (some k) h2 ip2 now =
      (.admitted, setSession sessions k ⟨h2, ip2, now⟩) := by
    simp [verify_api_key, hk, hmem, h2ne, hs]
  have hg1 := getSession_setSession_self sessions k (⟨h1, ip1, now⟩ : Session)
  have hg2 := getSession_setSession_self sessions k (⟨h2, ip2, now⟩ : Session)
  constructor
  · refine ⟨by rw [step1], ?_, ?_⟩ <;> rw [step1] <;>
      simp [verify_api_key, hk, hmem, h2ne, hg1, hpair, Ne.symm hpair,
        sub_self, not_lt.mpr hT, sub_zero]
  · refine ⟨by rw [step2], ?_, ?_⟩ <;> rw [step2] <;>
      simp [verify_api_key, hk, hmem, h1ne, hg2, hpair, Ne.symm hpair,
        sub_self, not_lt.mpr hT, sub_zero]

/-- C9 witness: on an unclaimed key with timeout 30, in both serialization
orders of `alice`'s and `bob`'s simultaneous first claims, the first caller
is admitted and the second gets a conflict. -/
theorem concurrent_first_claim_single_winner_witness :
    ((verify_api_key ["k1"] 30 [] (some "k1") "alice" "10.0.0.1" 100).1 =
        .admitted ∧
     (verify_api_key ["k1"] 30
        (verify_api_key ["k1"] 30 [] (some "k1") "alice" "10.0.0.1" 100).2
        (some "k1") "bob" "10.0.0.2" 100).1 =
        .conflict ("alice".take 8) "10.0.0.1" 30 ∧
     (verify_api_key ["k1"] 30
        (verify_api_key ["k1"] 30 [] (some "k1") "alice" "10.0.0.1" 100).2
        (some "k1") "bob" "10.0.0.2" 100).2 =
       (verify_api_key ["k1"] 30 [] (some "k1") "alice" "10.0.0.1" 100).2) ∧
    ((verify_api_key ["k1"] 30 [] (some "k1") "bob" "10.0.0.2" 100).1 =
        .admitted ∧
     (verify_api_key ["k1"] 30
        (verify_api_key ["k1"] 30 [] (some "k1") "bob" "10.0.0.2" 100).2
        (some "k1") "alice" "10.0.0.1" 100).1 =
        .conflict ("bob".take 8) "10.0.0.2" 30 ∧
     (verify_api_key ["k1"] 30
        (verify_api_key ["k1"] 30 [] (some "k1") "bob" "10.0.0.2" 100).2
        (some "k1") "alice" "10.0.0.1" 100).2 =
       (verify_api_key ["k1"] 30 [] (some "k1") "bob" "10.0.0.2" 100).2) :=
  concurrent_first_claim_single_winner ["k1"] 30 [] "k1" "alice" "bob"
    "10.0.0.1" "10.0.0.2" 100 (by decide) (by decide) (by decide) (by decide)
    (by decide) (by decide) (by decide)

/-- C10: an admitted refresh from the incumbent only rewrites `last_active`:
the stored source address stays the originally recorded one even when the
incumbent polls from a new address, and a later conflict against a different
holder reports that original address. -/
theorem refresh_keeps_source_address (API_KEYS : List String) (T : Int)
    (sessions : List (String × Session)) (k ip2 h2 ip3 : String)
    (sess : Session) (now now2 : Int)
    (hk : k ≠ "") (hmem : k ∈ API_KEYS)
    (hs : getSession sessions k = some sess) (hc : sess.client_id ≠ "")
    (h2ne : h2 ≠ "") (hdiff : sess.client_id ≠ h2)
    (hlive : now2 - now ≤ T) :
    getSession (verify_api_key API_KEYS T sessions (some k) sess.client_id
        ip2 now).2 k = some ⟨sess.client_id, sess.ip, now⟩ ∧
    (verify_api_key API_KEYS T
        (verify_api_key API_KEYS T sessions (some k) sess.client_id ip2 now).2
        (some k) h2 ip3 now2).1 =
      .conflict (sess.client_id.take 8) sess.ip (T - (now2 - now)) := by
  have step1 : verify_api_key API_KEYS T sessions (some k) sess.client_id
      ip2 now = (.admitted, setSession sessions k
        { sess with last_active := now }) := by
    simp [verify_api_key, hk, hmem, hc, hs]
  have hg := getSession_setSession_self sessions k
    { sess with last_active := now }
  constructor
  · rw [step1]; exact hg
  · rw [step1]
    simp [verify_api_key, hk, hmem, h2ne, hg, hdiff, not_lt.mpr hlive]

/-- C10 witness: `alice` (recorded at `10.0.0.1`) refreshing from the new
address `10.9.9.9` keeps `10.0.0.1` as her stored address, and `bob`'s
subsequent conflict reports that original address. -/
theorem refresh_keeps_source_address_witness :
    getSession (verify_api_key ["k1"] 30
        [("k1", ⟨"alice", "10.0.0.1", 100⟩)] (some "k1") "alice"
        "10.9.9.9" 110).2 "k1" = some ⟨"alice", "10.0.0.1", 110⟩ ∧
    (verify_api_key ["k1"] 30
        (verify_api_key ["k1"] 30 [("k1", ⟨"alice", "10.0.0.1", 100⟩)]
          (some "k1") "alice" "10.9.9.9" 110).2
        (some "k1") "bob" "10.0.0.2" 120).1 =
      .conflict ("alice".take 8) "10.0.0.1" (30 - (120 - 110)) := by
  have h := refresh_keeps_source_address ["k1"] 30
    [("k1", ⟨"alice", "10.0.0.1", 100⟩)] "k1" "10.9.9.9" "bob" "10.0.0.2"
    ⟨"alice", "10.0.0.1", 100⟩ 110 120 (by decide) (by decide) (by decide)
    (by decide) (by decide) (by decide) (by decide)
  exact h
